import Mathlib

/-!
# Archive service client (`api.go`)

A shallow embedding of the client methods of `ASSGrpcClient` and the
properties of their return values and of the remote calls they issue.

Conventions of the embedding.

* Go `int` is 64 bits wide, `int32` is 32 bits wide; both are carried as `Int`
  and every narrowing conversion `int32(x)` is the explicit wraparound
  `toInt32`.
* A Go slice is a `Slice`: the nil slice and an allocated slice of length 0
  are different values.
* The remote service is an arbitrary deterministic machine over a state type
  `σ`; every remote interaction threads that state and is appended to a log of
  calls, so that "no remote call" and "exactly one remote call" are statements
  about the log.
* An element of the input list of `BatchAbnormal` is a pointer
  `*AbnormalUser`: it is an `Option AbnormalUser`, `none` being the nil
  pointer, and dereferencing it panics; a call that panics returns nothing
  (`Outcome.panics`). The response messages handed back by the remote stub
  with a nil error are present records.
-/

namespace AssGrpc

/-! ## Machine integers -/

/-- The Go conversion `int32(x)`: `x` reduced modulo `2^32` into the signed
32-bit range. -/
def toInt32 (x : Int) : Int := (x + 2 ^ 31) % 2 ^ 32 - 2 ^ 31

/-! ## `strconv.Atoi` -/

/-- A byte in `'0'..'9'`. -/
def isDigit (c : Char) : Bool := decide (48 ≤ c.toNat) && decide (c.toNat ≤ 57)

/-- The digit loop of `strconv.ParseUint` in base 10: `none` on the first
character that is not a decimal digit. -/
def parseDigits : List Char → Nat → Option Nat
  | [], acc => some acc
  | c :: cs, acc =>
    if isDigit c then parseDigits cs (acc * 10 + (c.toNat - 48)) else none

/-- Go's standard-library `strconv.Atoi` on a 64-bit platform, with every error
(syntax or range) collapsed to `none`, which is all `api.go` looks at
(`err != nil`). An optional sign, then at least one decimal digit and nothing
else; the value must fit a signed 64-bit integer. A Go string is a byte
sequence; a byte that is not an ASCII digit or a leading sign is rejected, as
is every character outside `'0'..'9'` here. -/
def Atoi (s : String) : Option Int :=
  match s.data with
  | [] => none
  | c :: cs =>
    let neg := c == '-'
    let body := if c == '-' || c == '+' then cs else c :: cs
    match body with
    | [] => none
    | _ :: _ =>
      match parseDigits body 0 with
      | none => none
      | some un =>
        if neg then
          if un > 2 ^ 63 then none else some (-(un : Int))
        else
          if un ≥ 2 ^ 63 then none else some (un : Int)

/-! ## Go slices and errors -/

/-- A Go slice value: `nil` is the nil slice, `of xs` an allocated slice with
elements `xs` (possibly none). -/
inductive Slice (α : Type) where
  | nil : Slice α
  | of (elems : List α) : Slice α
  deriving DecidableEq

namespace Slice

/-- The elements of a slice; ranging over a nil slice visits nothing. -/
def toList {α : Type} : Slice α → List α
  | nil => []
  | of xs => xs

/-- Go `len(s)`. -/
def len {α : Type} (s : Slice α) : Nat := s.toList.length

/-- Go `s == nil`. -/
def isNil {α : Type} : Slice α → Bool
  | nil => true
  | of _ => false

/-- Go `append(s, x)`: the result is always an allocated slice. -/
def append {α : Type} (s : Slice α) (x : α) : Slice α := of (s.toList ++ [x])

end Slice

/-- An error returned by the remote stub: `code` is what
`status.Convert(err).Code()` yields for it (an unsigned 32-bit gRPC status
code, `Unknown` for a transport error that carries no status). -/
structure RemoteErr where
  code : Nat
  msg : String
  deriving DecidableEq

/-- A Go `error` value as the client returns it: one it made itself with
`errors.New`, or the error of a remote call passed through. -/
inductive GoError where
  | errorsNew (msg : String) : GoError
  | remote (e : RemoteErr) : GoError
  deriving DecidableEq

/-- The expression `Code(status.Convert(err).Code())`: the unsigned status code
converted to the signed 32-bit enum type `Code`. -/
def statusCode (e : RemoteErr) : Int := toInt32 ((e.code % 2 ^ 32 : Nat) : Int)

/-! ## The remote interface -/

/-- Modelled from the spec: the generated enum constants of type `Code` are not
under `src/`. Their numeric values are unknown, so they are parameters: the
three status codes of the destroy-by-code operation (code expired, code
invalid, code not found) and the three per-item statuses of the batch stream
(success, user does not exist, invalid parameters). -/
structure Codes where
  Success : Int
  UserNotExistErr : Int
  ParamsErr : Int
  WebDestroyCodeExpiredErr : Int
  WebDestroyCodeErr : Int
  WebDestroyCodeNotFoundErr : Int
  deriving DecidableEq

/-- Modelled from the spec: the generated request message of the
destroy-by-code operation (uid, bucket, archive id, code) is not under `src/`. -/
structure WebDestroyReq where
  Uid : String
  Bid : String
  Aid : Int
  Code : String
  deriving DecidableEq

/-- Modelled from the spec: the generated request message sent on the batch
stream (uid, bucket, archive id, reason) is not under `src/`. -/
structure BatchAbnuserReq where
  Uid : String
  Bid : String
  Aid : Int
  Reason : Int
  deriving DecidableEq

/-- Modelled from the spec: the generated response message received on the
batch stream, carrying a status, is not under `src/`. -/
structure BatchAbnuserResp where
  Code : Int
  deriving DecidableEq

/-- Modelled from the spec: the generated request message of the lookup by
uid (uid, bucket) is not under `src/`. -/
structure GetUserInfoReq where
  Uid : String
  Bid : String
  deriving DecidableEq

/-- Modelled from the spec: the generated entry of the social-info list of a
lookup response (social id, archive id) is not under `src/`. -/
structure GetUserInfoItem where
  Sid : String
  Aid : Int
  deriving DecidableEq

/-- Modelled from the spec: the generated response message of the lookup by
uid (did, uid, registration time, list of social-info entries) is not under
`src/`. -/
structure GetUserInfoResp where
  Did : String
  Uid : String
  RegTime : Int
  List : Slice GetUserInfoItem
  deriving DecidableEq

/-- Modelled from the spec: the generated archive identity tuple
(bucket, uid, archive id) is not under `src/`. -/
structure BaseInfo where
  Bid : String
  Uid : String
  Aid : Int
  deriving DecidableEq

/-- Modelled from the spec: the generated request message of the clear
operation, wrapping the archive identity tuple, is not under `src/`. -/
structure ClearArchiveReq where
  UserInfo : BaseInfo
  deriving DecidableEq

/-- Modelled from the spec: the generated request message of the delete
operation, wrapping the archive identity tuple, is not under `src/`. -/
structure DeleteArchiveReq where
  UserInfo : BaseInfo
  deriving DecidableEq

/-- Modelled from the spec: the generated client interface `ArchiveInnerClient`
is not under `src/`. The remote service and the transport are an arbitrary
machine over a state `σ`: each operation takes the current state and the
request and yields its outcome and the next state. `BatchAbnuser` opens the
bidirectional stream; `Send` and `Recv` are the two methods of the opened
stream. -/
structure ArchiveInnerClient (σ : Type) where
  WebDestroy : σ → WebDestroyReq → Option RemoteErr × σ
  BatchAbnuser : σ → Option RemoteErr × σ
  Send : σ → BatchAbnuserReq → Option RemoteErr × σ
  Recv : σ → Except RemoteErr BatchAbnuserResp × σ
  GetUserInfo : σ → GetUserInfoReq → Except RemoteErr GetUserInfoResp × σ
  ClearArchive : σ → ClearArchiveReq → Option RemoteErr × σ
  DeleteArchive : σ → DeleteArchiveReq → Option RemoteErr × σ

/-- One remote interaction, as recorded in the log. -/
inductive Call where
  | webDestroy (req : WebDestroyReq) : Call
  | batchAbnuser : Call
  | send (req : BatchAbnuserReq) : Call
  | recv : Call
  | getUserInfo (req : GetUserInfoReq) : Call
  | clearArchive (req : ClearArchiveReq) : Call
  | deleteArchive (req : DeleteArchiveReq) : Call
  deriving DecidableEq

/-- The state a client method runs in: the state of the remote machine and the
log of the remote interactions made so far, oldest first. -/
structure World (σ : Type) where
  st : σ
  log : List Call
  deriving DecidableEq

/-- The world after one remote interaction `c` that left the remote machine in
state `s`. -/
def World.step {σ : Type} (w : World σ) (s : σ) (c : Call) : World σ :=
  { st := s, log := w.log ++ [c] }

/-! ## The client -/

/-- The client: a wrapper around the remote interface. -/
structure ASSGrpcClient (σ : Type) where
  grpc : ArchiveInnerClient σ

/-- An item of the batch operation. -/
structure AbnormalUser where
  Uid : String
  Bid : String
  Aid : String
  Reason : Int
  deriving DecidableEq

/-- An entry of the social-info sequence of a `UserInfo`. -/
structure SocialInfo where
  Sid : String
  Aid : Int
  deriving DecidableEq

/-- The result of a user lookup. -/
structure UserInfo where
  Did : String
  Uid : String
  RegTime : Int
  Sis : Slice SocialInfo
  deriving DecidableEq

variable {σ : Type}

/-- `DestroyUserByCode`: parse the archive id, issue one `WebDestroy` call and
flatten its outcome to an integer. -/
def ASSGrpcClient.DestroyUserByCode (a : ASSGrpcClient σ) (K : Codes) (w : World σ)
    (uid aid bid verifyCode : String) : Int × World σ :=
  match Atoi aid with
  | none => (-1, w)
  | some tAid =>
    let req : WebDestroyReq :=
      { Uid := uid, Bid := bid, Aid := toInt32 tAid, Code := verifyCode }
    let r := a.grpc.WebDestroy w.st req
    let w1 := w.step r.2 (Call.webDestroy req)
    match r.1 with
    | some err =>
      if statusCode err = K.WebDestroyCodeExpiredErr then (1, w1)
      else if statusCode err = K.WebDestroyCodeErr then (2, w1)
      else if statusCode err = K.WebDestroyCodeNotFoundErr then (0, w1)
      else (-1, w1)
    | none => (200, w1)

/-- The body of the loop of `BatchAbnormal` for one item: the entry appended to
the result and the world afterwards. -/
def ASSGrpcClient.batchItem (a : ASSGrpcClient σ) (K : Codes) (w : World σ)
    (user : AbnormalUser) : String × World σ :=
  match Atoi user.Aid with
  | none => ("-1", w)
  | some tAid =>
    let req : BatchAbnuserReq :=
      { Uid := user.Uid, Bid := user.Bid, Aid := toInt32 tAid,
        Reason := toInt32 user.Reason }
    let s := a.grpc.Send w.st req
    let w1 := w.step s.2 (Call.send req)
    match s.1 with
    | some _ => ("500", w1)
    | none =>
      let r := a.grpc.Recv w1.st
      let w2 := w1.step r.2 Call.recv
      match r.1 with
      | Except.error _ => ("500", w2)
      | Except.ok resp =>
        if resp.Code = K.Success then ("200", w2)
        else if resp.Code = K.UserNotExistErr then ("-2", w2)
        else if resp.Code = K.ParamsErr then ("-1", w2)
        else ("500", w2)

/-- How a call ends: it returns a value, or it panics on a nil pointer
dereference and returns nothing. -/
inductive Outcome (α : Type) where
  | returns (v : α) : Outcome α
  | panics : Outcome α
  deriving DecidableEq

/-- The loop `for _, user := range list` of `BatchAbnormal`, with the result
slice `res` built so far. The elements are pointers; the first thing the body
does is read `user.Aid`, which panics on a nil element. -/
def ASSGrpcClient.batchLoop (a : ASSGrpcClient σ) (K : Codes) :
    List (Option AbnormalUser) → Slice String → World σ → Outcome (Slice String) × World σ
  | [], res, w => (Outcome.returns res, w)
  | none :: _, _, w => (Outcome.panics, w)
  | some user :: rest, res, w =>
    let r := a.batchItem K w user
    ASSGrpcClient.batchLoop a K rest (res.append r.1) r.2

/-- `BatchAbnormal`: the result slice and the error it returns, unless it
panics, and the world afterwards. -/
def ASSGrpcClient.BatchAbnormal (a : ASSGrpcClient σ) (K : Codes) (w : World σ)
    (list : Slice (Option AbnormalUser)) :
    Outcome (Slice String × Option GoError) × World σ :=
  if list.isNil || list.len == 0 then
    (Outcome.returns (Slice.nil, some (GoError.errorsNew "param list is nil")), w)
  else
    let o := a.grpc.BatchAbnuser w.st
    let w1 := w.step o.2 Call.batchAbnuser
    match o.1 with
    | some err => (Outcome.returns (Slice.nil, some (GoError.remote err)), w1)
    | none =>
      let r := a.batchLoop K list.toList (Slice.of []) w1
      match r.1 with
      | Outcome.returns res => (Outcome.returns (res, none), r.2)
      | Outcome.panics => (Outcome.panics, r.2)

/-- The loop `for _, info := range userInfo.List` of `ListAidByUid`, appending
to the field `Sis`. -/
def appendSocial : List GetUserInfoItem → Slice SocialInfo → Slice SocialInfo
  | [], sis => sis
  | info :: rest, sis =>
    appendSocial rest (sis.append { Sid := info.Sid, Aid := info.Aid })

/-- `ListAidByUid`: the `*UserInfo` (`none` for the nil pointer), the error, and
the world afterwards. -/
def ASSGrpcClient.ListAidByUid (a : ASSGrpcClient σ) (w : World σ) (uid bid : String) :
    (Option UserInfo × Option GoError) × World σ :=
  let req : GetUserInfoReq := { Uid := uid, Bid := bid }
  let r := a.grpc.GetUserInfo w.st req
  let w1 := w.step r.2 (Call.getUserInfo req)
  match r.1 with
  | Except.error err => ((none, some (GoError.remote err)), w1)
  | Except.ok userInfo =>
    let res : UserInfo :=
      { Did := userInfo.Did, Uid := userInfo.Uid, RegTime := userInfo.RegTime,
        Sis := Slice.nil }
    ((some { res with Sis := appendSocial userInfo.List.toList res.Sis }, none), w1)

/-- `ClearArchive`: the error returned (`none` for nil) and the world
afterwards. -/
def ASSGrpcClient.ClearArchive (a : ASSGrpcClient σ) (w : World σ) (bid uid : String)
    (aid : Int) : Option GoError × World σ :=
  if bid = "" ∨ uid = "" ∨ aid < 0 ∨ aid > 9 then
    (some (GoError.errorsNew "param errors"), w)
  else
    let req : ClearArchiveReq :=
      { UserInfo := { Bid := bid, Uid := uid, Aid := toInt32 aid } }
    let r := a.grpc.ClearArchive w.st req
    let w1 := w.step r.2 (Call.clearArchive req)
    match r.1 with
    | some err => (some (GoError.remote err), w1)
    | none => (none, w1)

/-- `DeleteArchive`: the error returned (`none` for nil) and the world
afterwards. -/
def ASSGrpcClient.DeleteArchive (a : ASSGrpcClient σ) (w : World σ) (bid uid : String)
    (aid : Int) : Option GoError × World σ :=
  if bid = "" ∨ uid = "" ∨ aid < 0 ∨ aid > 9 then
    (some (GoError.errorsNew "param errors"), w)
  else
    let req : DeleteArchiveReq :=
      { UserInfo := { Bid := bid, Uid := uid, Aid := toInt32 aid } }
    let r := a.grpc.DeleteArchive w.st req
    let w1 := w.step r.2 (Call.deleteArchive req)
    match r.1 with
    | some err => (some (GoError.remote err), w1)
    | none => (none, w1)

/-- The world after the loop of `BatchAbnormal` has run over `items`, in
order, starting from `w`; the loop stops at a nil element. -/
def ASSGrpcClient.worldAfter (a : ASSGrpcClient σ) (K : Codes) :
    World σ → List (Option AbnormalUser) → World σ
  | w, [] => w
  | w, none :: _ => w
  | w, some user :: rest => ASSGrpcClient.worldAfter a K (a.batchItem K w user).2 rest

/-- The world in which `BatchAbnormal` reaches position `i` of `list`: the
stream has been opened and the loop has run over the `i` elements before that
position. -/
def ASSGrpcClient.worldBefore (a : ASSGrpcClient σ) (K : Codes) (w : World σ)
    (list : Slice (Option AbnormalUser)) (i : Nat) : World σ :=
  a.worldAfter K (w.step (a.grpc.BatchAbnuser w.st).2 Call.batchAbnuser) (list.toList.take i)

/-! ## Concrete remotes, used to evaluate the client on explicit inputs -/

/-- A remote, with a counter of operations as its state, on which every
operation succeeds; every batch response has status `0` and every lookup
response has an allocated social-info list without entries. -/
def okRemote : ArchiveInnerClient Nat where
  WebDestroy := fun s _ => (none, s + 1)
  BatchAbnuser := fun s => (none, s + 1)
  Send := fun s _ => (none, s + 1)
  Recv := fun s => (Except.ok { Code := 0 }, s + 1)
  GetUserInfo := fun s _ =>
    (Except.ok { Did := "d", Uid := "u", RegTime := 7, List := Slice.of [] }, s + 1)
  ClearArchive := fun s _ => (none, s + 1)
  DeleteArchive := fun s _ => (none, s + 1)

/-- A remote on which every operation fails with the status code `c`. -/
def failRemote (c : Nat) : ArchiveInnerClient Nat where
  WebDestroy := fun s _ => (some { code := c, msg := "down" }, s + 1)
  BatchAbnuser := fun s => (some { code := c, msg := "down" }, s + 1)
  Send := fun s _ => (some { code := c, msg := "down" }, s + 1)
  Recv := fun s => (Except.error { code := c, msg := "down" }, s + 1)
  GetUserInfo := fun s _ => (Except.error { code := c, msg := "down" }, s + 1)
  ClearArchive := fun s _ => (some { code := c, msg := "down" }, s + 1)
  DeleteArchive := fun s _ => (some { code := c, msg := "down" }, s + 1)

/-- A remote on which the stream opens; `Send` succeeds when `sendOk` holds
and fails otherwise; `Recv` yields a response with status `c` when `recv` is
`some c` and fails when it is `none`. -/
def streamRemote (sendOk : Bool) (recv : Option Int) : ArchiveInnerClient Nat where
  WebDestroy := fun s _ => (none, s + 1)
  BatchAbnuser := fun s => (none, s + 1)
  Send := fun s _ => (if sendOk then none else some { code := 14, msg := "send" }, s + 1)
  Recv := fun s =>
    (match recv with
      | some c => Except.ok { Code := c }
      | none => Except.error { code := 14, msg := "recv" }, s + 1)
  GetUserInfo := fun s _ => (Except.error { code := 14, msg := "down" }, s + 1)
  ClearArchive := fun s _ => (none, s + 1)
  DeleteArchive := fun s _ => (none, s + 1)

/-- A client of `streamRemote sendOk recv`. -/
def streamClient (sendOk : Bool) (recv : Option Int) : ASSGrpcClient Nat :=
  { grpc := streamRemote sendOk recv }

/-- The item with aid "1". -/
def item1 : AbnormalUser := { Uid := "u1", Bid := "b", Aid := "1", Reason := 0 }

/-- The item with aid "x". -/
def itemX : AbnormalUser := { Uid := "u2", Bid := "b", Aid := "x", Reason := 0 }

/-- The two-item list with aid "1" then aid "x". -/
def sampleList : Slice (Option AbnormalUser) := Slice.of [some item1, some itemX]

/-- The item with aid "1" followed by a nil pointer. -/
def itemThenNil : Slice (Option AbnormalUser) := Slice.of [some item1, none]

/-- A nil pointer followed by the item with aid "1". -/
def nilThenItem : Slice (Option AbnormalUser) := Slice.of [none, some item1]

/-- A client of `okRemote`. -/
def okClient : ASSGrpcClient Nat := { grpc := okRemote }

/-- A client of `failRemote c`. -/
def failClient (c : Nat) : ASSGrpcClient Nat := { grpc := failRemote c }

/-- Six pairwise different values for the enum constants. -/
def sampleCodes : Codes :=
  { Success := 0, UserNotExistErr := 1001, ParamsErr := 1002,
    WebDestroyCodeExpiredErr := 2001, WebDestroyCodeErr := 2002,
    WebDestroyCodeNotFoundErr := 2003 }

/-- The world before any remote interaction, the remote counter at `0`. -/
def world0 : World Nat := { st := 0, log := [] }

/-! ## Machine integers and `Atoi` -/

theorem toInt32_of_small (x : Int) (h0 : 0 ≤ x) (h9 : x ≤ 9) : toInt32 x = x := by
  unfold toInt32
  omega

/-- C1. For every uid, bid, verification code and every aid text that `Atoi`
accepts, the result of `DestroyUserByCode` is fixed by the outcome of the one
`WebDestroy` call it makes: 200 on success, 1, 2 and 0 when the error carries
the code-expired, code-invalid and code-not-found status, and -1 for every
other error. The three enum constants are pairwise different (they are the
case labels of one Go `switch`). -/
theorem DestroyUserByCode_result (a : ASSGrpcClient σ) (K : Codes) (w : World σ)
    (uid aid bid verifyCode : String) (n : Int)
    (hK : K.WebDestroyCodeExpiredErr ≠ K.WebDestroyCodeErr ∧
      K.WebDestroyCodeExpiredErr ≠ K.WebDestroyCodeNotFoundErr ∧
      K.WebDestroyCodeErr ≠ K.WebDestroyCodeNotFoundErr)
    (hparse : Atoi aid = some n) :
    ((a.grpc.WebDestroy w.st ⟨uid, bid, toInt32 n, verifyCode⟩).1 = none →
      (a.DestroyUserByCode K w uid aid bid verifyCode).1 = 200) ∧
    (∀ e, (a.grpc.WebDestroy w.st ⟨uid, bid, toInt32 n, verifyCode⟩).1 = some e →
      (statusCode e = K.WebDestroyCodeExpiredErr →
        (a.DestroyUserByCode K w uid aid bid verifyCode).1 = 1) ∧
      (statusCode e = K.WebDestroyCodeErr →
        (a.DestroyUserByCode K w uid aid bid verifyCode).1 = 2) ∧
      (statusCode e = K.WebDestroyCodeNotFoundErr →
        (a.DestroyUserByCode K w uid aid bid verifyCode).1 = 0) ∧
      (statusCode e ≠ K.WebDestroyCodeExpiredErr → statusCode e ≠ K.WebDestroyCodeErr →
        statusCode e ≠ K.WebDestroyCodeNotFoundErr →
        (a.DestroyUserByCode K w uid aid bid verifyCode).1 = -1)) ∧
    (a.DestroyUserByCode K w uid aid bid verifyCode).2.log =
      w.log ++ [Call.webDestroy ⟨uid, bid, toInt32 n, verifyCode⟩] := by
  obtain ⟨h12, h13, h23⟩ := hK
  unfold ASSGrpcClient.DestroyUserByCode
  simp only [hparse]
  refine ⟨fun h => by simp [h], fun e h => ?_, ?_⟩
  · simp only [h]
    refine ⟨fun h1 => by simp [h1], fun h2 => ?_, fun h3 => ?_, fun n1 n2 n3 => ?_⟩
    · have n1 : statusCode e ≠ K.WebDestroyCodeExpiredErr := fun h1 => h12 (h1 ▸ h2)
      rw [if_neg n1, if_pos h2]
    · have n1 : statusCode e ≠ K.WebDestroyCodeExpiredErr := fun h1 => h13 (h1 ▸ h3)
      have n2 : statusCode e ≠ K.WebDestroyCodeErr := fun h2 => h23 (h2 ▸ h3)
      rw [if_neg n1, if_neg n2, if_pos h3]
    · simp [n1, n2, n3]
  · cases h : (a.grpc.WebDestroy w.st ⟨uid, bid, toInt32 n, verifyCode⟩).1 with
    | none => simp [World.step]
    | some e =>
      simp only []
      split_ifs <;> simp [World.step]

/-- The mapping of C1 evaluated: with aid "3", a remote that succeeds gives
200, and remotes failing with the code-expired, code-invalid, code-not-found
and an unrelated status give 1, 2, 0 and -1. -/
theorem DestroyUserByCode_result_witness :
    Atoi "3" = some 3 ∧
    (okClient.DestroyUserByCode sampleCodes world0 "u" "3" "b" "c").1 = 200 ∧
    ((failClient 2001).DestroyUserByCode sampleCodes world0 "u" "3" "b" "c").1 = 1 ∧
    ((failClient 2002).DestroyUserByCode sampleCodes world0 "u" "3" "b" "c").1 = 2 ∧
    ((failClient 2003).DestroyUserByCode sampleCodes world0 "u" "3" "b" "c").1 = 0 ∧
    ((failClient 14).DestroyUserByCode sampleCodes world0 "u" "3" "b" "c").1 = -1 :=
  ⟨by decide,
   (DestroyUserByCode_result okClient sampleCodes world0 "u" "3" "b" "c" 3
      (by decide) (by decide)).1 rfl,
   ((DestroyUserByCode_result (failClient 2001) sampleCodes world0 "u" "3" "b" "c" 3
      (by decide) (by decide)).2.1 _ rfl).1 (by decide),
   ((DestroyUserByCode_result (failClient 2002) sampleCodes world0 "u" "3" "b" "c" 3
      (by decide) (by decide)).2.1 _ rfl).2.1 (by decide),
   ((DestroyUserByCode_result (failClient 2003) sampleCodes world0 "u" "3" "b" "c" 3
      (by decide) (by decide)).2.1 _ rfl).2.2.1 (by decide),
   ((DestroyUserByCode_result (failClient 14) sampleCodes world0 "u" "3" "b" "c" 3
      (by decide) (by decide)).2.1 _ rfl).2.2.2 (by decide) (by decide) (by decide)⟩

/-- C2. For every aid text that `Atoi` rejects, and every uid, bid and
verification code, `DestroyUserByCode` returns -1 and leaves the world as it
was: no remote call is made. -/
theorem DestroyUserByCode_parse_failure (a : ASSGrpcClient σ) (K : Codes) (w : World σ)
    (uid aid bid verifyCode : String) (hparse : Atoi aid = none) :
    a.DestroyUserByCode K w uid aid bid verifyCode = (-1, w) := by
  unfold ASSGrpcClient.DestroyUserByCode
  simp [hparse]

/-- C2 at aid "abc": the result is -1 and the log of remote calls stays
empty. -/
theorem DestroyUserByCode_parse_failure_witness :
    Atoi "abc" = none ∧
    okClient.DestroyUserByCode sampleCodes world0 "u" "abc" "b" "c" = (-1, world0) :=
  ⟨by decide,
   DestroyUserByCode_parse_failure okClient sampleCodes world0 "u" "abc" "b" "c" (by decide)⟩

/-- C3. `ClearArchive` and `DeleteArchive` return the local parameter error,
leaving the world as it was (no remote call), whenever bid is empty, uid is
empty, aid is below 0 or aid is above 9; and an error made by the client
itself is returned for such inputs only. -/
theorem ClearDelete_param_error (a : ASSGrpcClient σ) (w : World σ) (bid uid : String)
    (aid : Int) :
    ((bid = "" ∨ uid = "" ∨ aid < 0 ∨ aid > 9) →
      a.ClearArchive w bid uid aid = (some (GoError.errorsNew "param errors"), w) ∧
      a.DeleteArchive w bid uid aid = (some (GoError.errorsNew "param errors"), w)) ∧
    (∀ msg, (a.ClearArchive w bid uid aid).1 = some (GoError.errorsNew msg) →
      (bid = "" ∨ uid = "" ∨ aid < 0 ∨ aid > 9)) ∧
    (∀ msg, (a.DeleteArchive w bid uid aid).1 = some (GoError.errorsNew msg) →
      (bid = "" ∨ uid = "" ∨ aid < 0 ∨ aid > 9)) := by
  refine ⟨fun h => ?_, fun msg h => ?_, fun msg h => ?_⟩
  · simp [ASSGrpcClient.ClearArchive, ASSGrpcClient.DeleteArchive, h]
  · by_contra hv
    unfold ASSGrpcClient.ClearArchive at h
    rw [if_neg hv] at h
    revert h
    simp only []
    split <;> simp
  · by_contra hv
    unfold ASSGrpcClient.DeleteArchive at h
    rw [if_neg hv] at h
    revert h
    simp only []
    split <;> simp

/-- C3 evaluated: an empty bid, an empty uid, aid -1 and aid 10 each give the
parameter error with nothing logged, on both operations. -/
theorem ClearDelete_param_error_witness :
    okClient.ClearArchive world0 "" "u" 3 = (some (GoError.errorsNew "param errors"), world0) ∧
    okClient.DeleteArchive world0 "b" "" 3 = (some (GoError.errorsNew "param errors"), world0) ∧
    okClient.ClearArchive world0 "b" "u" (-1) =
      (some (GoError.errorsNew "param errors"), world0) ∧
    okClient.DeleteArchive world0 "b" "u" 10 =
      (some (GoError.errorsNew "param errors"), world0) :=
  ⟨((ClearDelete_param_error okClient world0 "" "u" 3).1 (Or.inl rfl)).1,
   ((ClearDelete_param_error okClient world0 "b" "" 3).1 (Or.inr (Or.inl rfl))).2,
   ((ClearDelete_param_error okClient world0 "b" "u" (-1)).1
      (Or.inr (Or.inr (Or.inl (by decide))))).1,
   ((ClearDelete_param_error okClient world0 "b" "u" 10).1
      (Or.inr (Or.inr (Or.inr (by decide))))).2⟩

/-- C4. For a non-empty bid, a non-empty uid and aid in 0..9, `ClearArchive`
and `DeleteArchive` make exactly one call of their remote operation, with the
request carrying that (bid, uid, aid), and return that call's error (nil when
it succeeds); a second invocation with the same arguments makes a second
call. -/
theorem ClearDelete_valid (a : ASSGrpcClient σ) (w : World σ) (bid uid : String) (aid : Int)
    (hb : bid ≠ "") (hu : uid ≠ "") (h0 : 0 ≤ aid) (h9 : aid ≤ 9) :
    a.ClearArchive w bid uid aid =
      ((a.grpc.ClearArchive w.st ⟨⟨bid, uid, aid⟩⟩).1.map GoError.remote,
       { st := (a.grpc.ClearArchive w.st ⟨⟨bid, uid, aid⟩⟩).2,
         log := w.log ++ [Call.clearArchive ⟨⟨bid, uid, aid⟩⟩] }) ∧
    a.DeleteArchive w bid uid aid =
      ((a.grpc.DeleteArchive w.st ⟨⟨bid, uid, aid⟩⟩).1.map GoError.remote,
       { st := (a.grpc.DeleteArchive w.st ⟨⟨bid, uid, aid⟩⟩).2,
         log := w.log ++ [Call.deleteArchive ⟨⟨bid, uid, aid⟩⟩] }) ∧
    (a.ClearArchive (a.ClearArchive w bid uid aid).2 bid uid aid).2.log =
      w.log ++ [Call.clearArchive ⟨⟨bid, uid, aid⟩⟩, Call.clearArchive ⟨⟨bid, uid, aid⟩⟩] ∧
    (a.DeleteArchive (a.DeleteArchive w bid uid aid).2 bid uid aid).2.log =
      w.log ++ [Call.deleteArchive ⟨⟨bid, uid, aid⟩⟩, Call.deleteArchive ⟨⟨bid, uid, aid⟩⟩] := by
  have hv : ¬ (bid = "" ∨ uid = "" ∨ aid < 0 ∨ aid > 9) := by
    rintro (h | h | h | h)
    · exact hb h
    · exact hu h
    · omega
    · omega
  have h32 : toInt32 aid = aid := toInt32_of_small aid h0 h9
  have hc : ∀ w : World σ, a.ClearArchive w bid uid aid =
      ((a.grpc.ClearArchive w.st ⟨⟨bid, uid, aid⟩⟩).1.map GoError.remote,
       { st := (a.grpc.ClearArchive w.st ⟨⟨bid, uid, aid⟩⟩).2,
         log := w.log ++ [Call.clearArchive ⟨⟨bid, uid, aid⟩⟩] }) := by
    intro w
    unfold ASSGrpcClient.ClearArchive
    rw [if_neg hv, h32]
    cases h : (a.grpc.ClearArchive w.st ⟨⟨bid, uid, aid⟩⟩).1 <;> simp [World.step, h]
  have hd : ∀ w : World σ, a.DeleteArchive w bid uid aid =
      ((a.grpc.DeleteArchive w.st ⟨⟨bid, uid, aid⟩⟩).1.map GoError.remote,
       { st := (a.grpc.DeleteArchive w.st ⟨⟨bid, uid, aid⟩⟩).2,
         log := w.log ++ [Call.deleteArchive ⟨⟨bid, uid, aid⟩⟩] }) := by
    intro w
    unfold ASSGrpcClient.DeleteArchive
    rw [if_neg hv, h32]
    cases h : (a.grpc.DeleteArchive w.st ⟨⟨bid, uid, aid⟩⟩).1 <;> simp [World.step, h]
  refine ⟨hc w, hd w, ?_, ?_⟩
  · rw [hc, hc]
    simp
  · rw [hd, hd]
    simp

/-- C4 evaluated at ("b", "u", 9): one call is logged per invocation, carrying
that tuple, and the remote's outcome is what is returned. -/
theorem ClearDelete_valid_witness :
    okClient.ClearArchive world0 "b" "u" 9 =
      (none, { st := 1, log := [Call.clearArchive ⟨⟨"b", "u", 9⟩⟩] }) ∧
    ((failClient 5).DeleteArchive world0 "b" "u" 9).1 =
      some (GoError.remote { code := 5, msg := "down" }) ∧
    (okClient.ClearArchive (okClient.ClearArchive world0 "b" "u" 9).2 "b" "u" 9).2.log =
      [Call.clearArchive ⟨⟨"b", "u", 9⟩⟩, Call.clearArchive ⟨⟨"b", "u", 9⟩⟩] :=
  ⟨(ClearDelete_valid okClient world0 "b" "u" 9 (by decide) (by decide) (by decide)
      (by decide)).1,
   congrArg Prod.fst (ClearDelete_valid (failClient 5) world0 "b" "u" 9 (by decide)
      (by decide) (by decide) (by decide)).2.1,
   (ClearDelete_valid okClient world0 "b" "u" 9 (by decide) (by decide) (by decide)
      (by decide)).2.2.1⟩

/-! ## `ListAidByUid` -/

/-- C9, as the code behaves. For every successful remote response whose
social-info list has no entries, `ListAidByUid` returns a `UserInfo` with the
response's did, uid and registration time whose `Sis` has no entries and is
the nil slice: `Sis` starts nil and is only allocated by an append. -/
theorem ListAidByUid_empty_list (a : ASSGrpcClient σ) (w : World σ) (uid bid : String)
    (resp : GetUserInfoResp)
    (hok : (a.grpc.GetUserInfo w.st ⟨uid, bid⟩).1 = Except.ok resp)
    (hempty : resp.List.len = 0) :
    (a.ListAidByUid w uid bid).1 =
      (some { Did := resp.Did, Uid := resp.Uid, RegTime := resp.RegTime, Sis := Slice.nil },
       none) ∧
    (Slice.nil : Slice SocialInfo).len = 0 := by
  have hl : resp.List.toList = [] := List.length_eq_zero.mp hempty
  refine ⟨?_, rfl⟩
  unfold ASSGrpcClient.ListAidByUid
  simp only [hok, hl, appendSocial]

/-- The amended C9 at a remote answering with an allocated list without
entries. -/
theorem ListAidByUid_empty_list_witness :
    (okClient.ListAidByUid world0 "u" "b").1 =
      (some { Did := "d", Uid := "u", RegTime := 7, Sis := Slice.nil }, none) ∧
    (Slice.nil : Slice SocialInfo).len = 0 :=
  ListAidByUid_empty_list okClient world0 "u" "b"
    { Did := "d", Uid := "u", RegTime := 7, List := Slice.of [] } rfl rfl

/-- C9 fails as stated: the remote answers successfully with a social-info
list without entries, and the `Sis` of the returned `UserInfo` is the nil
slice, not an allocated slice without entries. -/
theorem ListAidByUid_empty_list_is_nil :
    (okRemote.GetUserInfo world0.st ⟨"u", "b"⟩).1 =
      Except.ok { Did := "d", Uid := "u", RegTime := 7, List := Slice.of [] } ∧
    ∃ info : UserInfo, (okClient.ListAidByUid world0 "u" "b").1 = (some info, none) ∧
      info.Sis = Slice.nil ∧ info.Sis ≠ Slice.of [] :=
  ⟨rfl, { Did := "d", Uid := "u", RegTime := 7, Sis := Slice.nil }, rfl, rfl, by decide⟩

/-! ## `BatchAbnormal` -/

theorem worldAfter_take_succ (a : ASSGrpcClient σ) (K : Codes) :
    ∀ (l : List (Option AbnormalUser)) (w : World σ) (i : Nat) (u : AbnormalUser),
      (∀ x ∈ l, x ≠ none) → l[i]? = some (some u) →
      a.worldAfter K w (l.take (i + 1)) = (a.batchItem K (a.worldAfter K w (l.take i)) u).2 := by
  intro l
  induction l with
  | nil => intro w i u _ h; simp at h
  | cons x rest ih =>
    intro w i u hp h
    cases x with
    | none => exact absurd rfl (hp none (List.mem_cons_self _ _))
    | some x =>
      have hp2 : ∀ y ∈ rest, y ≠ none := fun y hy => hp y (List.mem_cons_of_mem _ hy)
      cases i with
      | zero =>
        simp at h
        subst h
        simp [ASSGrpcClient.worldAfter]
      | succ j =>
        simp at h
        simpa [ASSGrpcClient.worldAfter] using ih (a.batchItem K w x).2 j u hp2 h

theorem batchLoop_spec (a : ASSGrpcClient σ) (K : Codes) :
    ∀ (l : List (Option AbnormalUser)) (acc : List String) (w : World σ),
      (∀ x ∈ l, x ≠ none) →
      ∃ res : List String,
        a.batchLoop K l (Slice.of acc) w =
          (Outcome.returns (Slice.of (acc ++ res)), a.worldAfter K w l) ∧
        res.length = l.length ∧
        ∀ i u, l[i]? = some (some u) →
          res[i]? = some (a.batchItem K (a.worldAfter K w (l.take i)) u).1 := by
  intro l
  induction l with
  | nil =>
    intro acc w _
    exact ⟨[], by simp [ASSGrpcClient.batchLoop, ASSGrpcClient.worldAfter], rfl,
      fun i u h => by simp at h⟩
  | cons x rest ih =>
    intro acc w hp
    cases x with
    | none => exact absurd rfl (hp none (List.mem_cons_self _ _))
    | some x =>
      have hp2 : ∀ y ∈ rest, y ≠ none := fun y hy => hp y (List.mem_cons_of_mem _ hy)
      obtain ⟨res, hres, hlen, hget⟩ :=
        ih (acc ++ [(a.batchItem K w x).1]) (a.batchItem K w x).2 hp2
      refine ⟨(a.batchItem K w x).1 :: res, ?_, by simp [hlen], ?_⟩
      · simp only [ASSGrpcClient.batchLoop, ASSGrpcClient.worldAfter, Slice.append,
          Slice.toList]
        rw [hres]
        simp
      · intro i u h
        cases i with
        | zero =>
          simp at h
          subst h
          simp [ASSGrpcClient.worldAfter]
        | succ j =>
          simp at h
          simpa [ASSGrpcClient.worldAfter] using hget j u h

theorem Slice.isNil_of_len_ne_zero {α : Type} (s : Slice α) (h : s.len ≠ 0) :
    s.isNil = false := by
  cases s with
  | nil => exact absurd rfl h
  | of xs => rfl

theorem BatchAbnormal_opened (a : ASSGrpcClient σ) (K : Codes) (w : World σ)
    (list : Slice (Option AbnormalUser)) (hne : list.len ≠ 0)
    (hpresent : ∀ x ∈ list.toList, x ≠ none)
    (hopen : (a.grpc.BatchAbnuser w.st).1 = none) :
    ∃ res : List String,
      a.BatchAbnormal K w list =
        (Outcome.returns (Slice.of res, none), a.worldBefore K w list list.len) ∧
      res.length = list.len ∧
      ∀ i u, list.toList[i]? = some (some u) →
        res[i]? = some (a.batchItem K (a.worldBefore K w list i) u).1 := by
  obtain ⟨res, hres, hlen, hget⟩ :=
    batchLoop_spec a K list.toList []
      (w.step (a.grpc.BatchAbnuser w.st).2 Call.batchAbnuser) hpresent
  refine ⟨res, ?_, hlen, hget⟩
  have hnil : list.isNil = false := Slice.isNil_of_len_ne_zero list hne
  unfold ASSGrpcClient.BatchAbnormal
  simp only [hnil, hopen, hres, ASSGrpcClient.worldBefore, Slice.len, List.take_length]
  simp [Slice.len] at hne
  simp [hne]

/-- C5, as the code behaves. For every non-empty input list none of whose
elements is a nil pointer, once the stream has been opened and whatever the
stream then does, `BatchAbnormal` returns an allocated result sequence (and a
nil error) with as many entries as the input has items; the entry at each
position is the one the loop body produces for the item at that position; and
for an item whose aid text `Atoi` rejects the entry is "-1" and the loop body
leaves the world as it was (nothing is sent or received for that item). The
world at the end is the one after the last item. -/
theorem BatchAbnormal_entries (a : ASSGrpcClient σ) (K : Codes) (w : World σ)
    (list : Slice (Option AbnormalUser)) (hne : list.len ≠ 0)
    (hpresent : ∀ x ∈ list.toList, x ≠ none)
    (hopen : (a.grpc.BatchAbnuser w.st).1 = none) :
    ∃ res : List String,
      (a.BatchAbnormal K w list).1 = Outcome.returns (Slice.of res, none) ∧
      (a.BatchAbnormal K w list).2 = a.worldBefore K w list list.len ∧
      res.length = list.len ∧
      (∀ i u, list.toList[i]? = some (some u) →
        res[i]? = some (a.batchItem K (a.worldBefore K w list i) u).1) ∧
      (∀ i u, list.toList[i]? = some (some u) → Atoi u.Aid = none →
        res[i]? = some "-1" ∧
        a.worldBefore K w list (i + 1) = a.worldBefore K w list i) := by
  obtain ⟨res, hres, hlen, hget⟩ := BatchAbnormal_opened a K w list hne hpresent hopen
  refine ⟨res, by rw [hres], by rw [hres], hlen, hget, fun i u hu hp => ?_⟩
  have hitem : ∀ w0 : World σ, a.batchItem K w0 u = ("-1", w0) := by
    intro w0
    unfold ASSGrpcClient.batchItem
    simp [hp]
  refine ⟨by rw [hget i u hu, hitem], ?_⟩
  unfold ASSGrpcClient.worldBefore
  rw [worldAfter_take_succ a K list.toList _ i u hpresent hu, hitem]

/-- The amended C5 at the list with aid "1" then aid "x", on a remote where
everything succeeds: two entries, the second "-1", and the only interactions
logged are the opening of the stream and one send and one receive for the
first item. -/
theorem BatchAbnormal_entries_witness :
    (okClient.BatchAbnormal sampleCodes world0 sampleList).1 =
      Outcome.returns (Slice.of ["200", "-1"], none) ∧
    (okClient.BatchAbnormal sampleCodes world0 sampleList).2.log =
      [Call.batchAbnuser, Call.send ⟨"u1", "b", 1, 0⟩, Call.recv] ∧
    ∃ res : List String,
      (okClient.BatchAbnormal sampleCodes world0 sampleList).1 =
        Outcome.returns (Slice.of res, none) ∧
      res.length = 2 ∧ res[1]? = some "-1" := by
  obtain ⟨res, hres, _, hlen, _, hbad⟩ :=
    BatchAbnormal_entries okClient sampleCodes world0 sampleList (by decide) (by decide)
      (by decide)
  exact ⟨by decide, by decide, res, hres, hlen, (hbad 1 itemX rfl (by decide)).1⟩

/-- C5 fails as stated: on the non-empty list made of the item with aid "1"
and a nil pointer, with the stream opened by a remote on which everything
succeeds, `BatchAbnormal` panics at the nil element and returns no result
sequence at all. -/
theorem BatchAbnormal_nil_element :
    itemThenNil.len ≠ 0 ∧
    (okRemote.BatchAbnuser world0.st).1 = none ∧
    (okClient.BatchAbnormal sampleCodes world0 itemThenNil).1 = Outcome.panics ∧
    ¬ ∃ r, (okClient.BatchAbnormal sampleCodes world0 itemThenNil).1 = Outcome.returns r :=
  ⟨by decide, rfl, by decide, fun ⟨r, hr⟩ => by
    have hp : (okClient.BatchAbnormal sampleCodes world0 itemThenNil).1 = Outcome.panics := by
      decide
    rw [hp] at hr
    cases hr⟩

/-- C6, as the code behaves. For every item of a non-empty list without nil
elements whose aid text `Atoi` accepts, once the stream has been opened, the
entry `BatchAbnormal` records at the item's position is: "500" if the send of
the item fails, and then the send is the only interaction made for the item (no
receive); "500" if the send succeeds and the receive fails; otherwise "200",
"-2", "-1" when the received status is Success, UserNotExist, InvalidParams,
and "500" for any other status. The three statuses are pairwise different enum
constants. -/
theorem BatchAbnormal_item_status (a : ASSGrpcClient σ) (K : Codes) (w : World σ)
    (list : Slice (Option AbnormalUser)) (i : Nat) (u : AbnormalUser) (n : Int)
    (hK : K.Success ≠ K.UserNotExistErr ∧ K.Success ≠ K.ParamsErr ∧
      K.UserNotExistErr ≠ K.ParamsErr)
    (hne : list.len ≠ 0) (hpresent : ∀ x ∈ list.toList, x ≠ none)
    (hopen : (a.grpc.BatchAbnuser w.st).1 = none)
    (hu : list.toList[i]? = some (some u)) (hn : Atoi u.Aid = some n) :
    ∃ (res : List String) (entry : String),
      (a.BatchAbnormal K w list).1 = Outcome.returns (Slice.of res, none) ∧
      res[i]? = some entry ∧
      (∀ e, (a.grpc.Send (a.worldBefore K w list i).st
            ⟨u.Uid, u.Bid, toInt32 n, toInt32 u.Reason⟩).1 = some e →
        entry = "500" ∧
        (a.worldBefore K w list (i + 1)).log =
          (a.worldBefore K w list i).log ++
            [Call.send ⟨u.Uid, u.Bid, toInt32 n, toInt32 u.Reason⟩]) ∧
      ((a.grpc.Send (a.worldBefore K w list i).st
            ⟨u.Uid, u.Bid, toInt32 n, toInt32 u.Reason⟩).1 = none →
        (∀ e, (a.grpc.Recv (a.grpc.Send (a.worldBefore K w list i).st
              ⟨u.Uid, u.Bid, toInt32 n, toInt32 u.Reason⟩).2).1 = Except.error e →
          entry = "500") ∧
        (∀ resp, (a.grpc.Recv (a.grpc.Send (a.worldBefore K w list i).st
              ⟨u.Uid, u.Bid, toInt32 n, toInt32 u.Reason⟩).2).1 = Except.ok resp →
          (resp.Code = K.Success → entry = "200") ∧
          (resp.Code = K.UserNotExistErr → entry = "-2") ∧
          (resp.Code = K.ParamsErr → entry = "-1") ∧
          (resp.Code ≠ K.Success → resp.Code ≠ K.UserNotExistErr →
            resp.Code ≠ K.ParamsErr → entry = "500"))) := by
  obtain ⟨h12, h13, h23⟩ := hK
  obtain ⟨res, hres, _, hget⟩ := BatchAbnormal_opened a K w list hne hpresent hopen
  refine ⟨res, (a.batchItem K (a.worldBefore K w list i) u).1, by rw [hres], hget i u hu,
    fun e he => ⟨?_, ?_⟩, fun hs => ⟨fun e he => ?_, fun resp hr => ⟨fun c => ?_, fun c => ?_,
      fun c => ?_, fun c1 c2 c3 => ?_⟩⟩⟩
  · unfold ASSGrpcClient.batchItem
    simp [hn, he]
  · have hstep : a.worldBefore K w list (i + 1) =
        (a.batchItem K (a.worldBefore K w list i) u).2 := by
      unfold ASSGrpcClient.worldBefore
      exact worldAfter_take_succ a K list.toList _ i u hpresent hu
    rw [hstep]
    unfold ASSGrpcClient.batchItem
    simp [hn, he, World.step]
  · unfold ASSGrpcClient.batchItem
    simp [hn, hs, World.step, he]
  · unfold ASSGrpcClient.batchItem
    simp [hn, hs, World.step, hr, c]
  · have c1 : resp.Code ≠ K.Success := fun h => h12 (h ▸ c)
    unfold ASSGrpcClient.batchItem
    simp only [hn, hs, World.step, hr]
    rw [if_neg c1, if_pos c]
  · have c1 : resp.Code ≠ K.Success := fun h => h13 (h ▸ c)
    have c2 : resp.Code ≠ K.UserNotExistErr := fun h => h23 (h ▸ c)
    unfold ASSGrpcClient.batchItem
    simp only [hn, hs, World.step, hr]
    rw [if_neg c1, if_neg c2, if_pos c]
  · unfold ASSGrpcClient.batchItem
    simp only [hn, hs, World.step, hr]
    rw [if_neg c1, if_neg c2, if_neg c3]

/-- The amended C6 at the first item (aid "1") of the two-item list, on a
remote whose receive answers with the UserNotExist status: the entry is "-2".
Evaluated on the other remotes: a failing send gives "500" with no receive
logged, a failing receive gives "500", and the statuses Success, InvalidParams
and an unrelated one give "200", "-1" and "500". -/
theorem BatchAbnormal_item_status_witness :
    (∃ res : List String,
      ((streamClient true (some 1001)).BatchAbnormal sampleCodes world0 sampleList).1 =
        Outcome.returns (Slice.of res, none) ∧ res[0]? = some "-2") ∧
    ((streamClient false (some 0)).BatchAbnormal sampleCodes world0 sampleList) =
      (Outcome.returns (Slice.of ["500", "-1"], none),
       { st := 2, log := [Call.batchAbnuser, Call.send ⟨"u1", "b", 1, 0⟩] }) ∧
    ((streamClient true none).BatchAbnormal sampleCodes world0 sampleList).1 =
      Outcome.returns (Slice.of ["500", "-1"], none) ∧
    ((streamClient true (some 0)).BatchAbnormal sampleCodes world0 sampleList).1 =
      Outcome.returns (Slice.of ["200", "-1"], none) ∧
    ((streamClient true (some 1002)).BatchAbnormal sampleCodes world0 sampleList).1 =
      Outcome.returns (Slice.of ["-1", "-1"], none) ∧
    ((streamClient true (some 77)).BatchAbnormal sampleCodes world0 sampleList).1 =
      Outcome.returns (Slice.of ["500", "-1"], none) := by
  refine ⟨?_, by decide, by decide, by decide, by decide, by decide⟩
  obtain ⟨res, entry, hres, hentry, _, hrecv⟩ :=
    BatchAbnormal_item_status (streamClient true (some 1001)) sampleCodes world0 sampleList 0
      item1 1 (by decide) (by decide) (by decide) (by decide) rfl (by decide)
  have hcode : entry = "-2" := ((hrecv rfl).2 { Code := 1001 } rfl).2.1 rfl
  exact ⟨res, hres, hcode ▸ hentry⟩

/-- C6 fails as stated: the item with aid "1" parses, and on a remote where
the send succeeds and the receive answers Success its entry would be "200";
but when a nil pointer stands before it in the list the call panics with only
the opening of the stream logged (nothing is sent for the item, nothing is
returned), and when a nil pointer stands after it the call panics too and the
entry is never returned. -/
theorem BatchAbnormal_item_unrecorded :
    Atoi item1.Aid = some 1 ∧
    (okClient.BatchAbnormal sampleCodes world0 (Slice.of [some item1])).1 =
      Outcome.returns (Slice.of ["200"], none) ∧
    okClient.BatchAbnormal sampleCodes world0 nilThenItem =
      (Outcome.panics, { st := 1, log := [Call.batchAbnuser] }) ∧
    (okClient.BatchAbnormal sampleCodes world0 itemThenNil).1 = Outcome.panics :=
  ⟨by decide, by decide, by decide, by decide⟩

/-- C7, as the code behaves. For every non-empty input list: if none of its
elements is a nil pointer and the stream opens, `BatchAbnormal` returns an
allocated result sequence and a nil error, whatever the sends and receives do;
if opening the stream fails, it returns no result sequence and that error, the
opening being the only interaction; and whenever it returns an error, opening
the stream has failed. -/
theorem BatchAbnormal_error (a : ASSGrpcClient σ) (K : Codes) (w : World σ)
    (list : Slice (Option AbnormalUser)) (hne : list.len ≠ 0) :
    ((∀ x ∈ list.toList, x ≠ none) → (a.grpc.BatchAbnuser w.st).1 = none →
      ∃ res : List String,
        (a.BatchAbnormal K w list).1 = Outcome.returns (Slice.of res, none)) ∧
    (∀ e, (a.grpc.BatchAbnuser w.st).1 = some e →
      (a.BatchAbnormal K w list).1 = Outcome.returns (Slice.nil, some (GoError.remote e)) ∧
      (a.BatchAbnormal K w list).2.log = w.log ++ [Call.batchAbnuser]) ∧
    (∀ r err, (a.BatchAbnormal K w list).1 = Outcome.returns (r, some err) →
      (a.grpc.BatchAbnuser w.st).1 ≠ none) := by
  have hnil : list.isNil = false := Slice.isNil_of_len_ne_zero list hne
  have hlen : list.toList.length ≠ 0 := hne
  refine ⟨fun hpresent hopen => ?_, fun e he => ?_, fun r err hret hopen => ?_⟩
  · obtain ⟨res, hres, _, _⟩ := BatchAbnormal_opened a K w list hne hpresent hopen
    exact ⟨res, by rw [hres]⟩
  · unfold ASSGrpcClient.BatchAbnormal
    simp [hnil, Slice.len, hlen, he, World.step]
  · unfold ASSGrpcClient.BatchAbnormal at hret
    simp only [hnil, Slice.len, hopen] at hret
    simp [hlen] at hret
    split at hret <;> simp at hret

/-- The amended C7 evaluated: a failing send is reported inline with a nil
error, and a failing opening of the stream is returned as the error. -/
theorem BatchAbnormal_error_witness :
    (∃ res : List String,
      ((streamClient false none).BatchAbnormal sampleCodes world0 sampleList).1 =
        Outcome.returns (Slice.of res, none)) ∧
    ((failClient 14).BatchAbnormal sampleCodes world0 sampleList).1 =
      Outcome.returns (Slice.nil, some (GoError.remote { code := 14, msg := "down" })) :=
  ⟨(BatchAbnormal_error (streamClient false none) sampleCodes world0 sampleList
      (by decide)).1 (by decide) rfl,
   ((BatchAbnormal_error (failClient 14) sampleCodes world0 sampleList (by decide)).2.1
      { code := 14, msg := "down" } rfl).1⟩

/-- C7 fails as stated: on a non-empty list, with a remote on which opening
the stream fails, `BatchAbnormal` returns no result sequence and a non-nil
error; and on a non-empty list holding only a nil pointer, with the stream
opened, it panics and returns neither a result sequence nor a nil error. -/
theorem BatchAbnormal_open_failure :
    sampleList.len ≠ 0 ∧
    ((failClient 14).BatchAbnormal sampleCodes world0 sampleList).1 =
      Outcome.returns (Slice.nil, some (GoError.remote { code := 14, msg := "down" })) ∧
    (Slice.of [(none : Option AbnormalUser)]).len ≠ 0 ∧
    (okClient.BatchAbnormal sampleCodes world0 (Slice.of [none])).1 = Outcome.panics :=
  ⟨by decide, by decide, by decide, by decide⟩

/-- C8. Given the nil list or a list without items, `BatchAbnormal` returns
no result sequence and an error, and leaves the world as it was: the stream is
not opened and nothing is sent or received. -/
theorem BatchAbnormal_empty (a : ASSGrpcClient σ) (K : Codes) (w : World σ)
    (list : Slice (Option AbnormalUser)) (h : list = Slice.nil ∨ list.len = 0) :
    a.BatchAbnormal K w list =
      (Outcome.returns (Slice.nil, some (GoError.errorsNew "param list is nil")), w) := by
  unfold ASSGrpcClient.BatchAbnormal
  rcases h with h | h
  · subst h
    simp [Slice.isNil]
  · simp [h]

/-- C8 at the nil list and at an allocated list without items. -/
theorem BatchAbnormal_empty_witness :
    okClient.BatchAbnormal sampleCodes world0 Slice.nil =
      (Outcome.returns (Slice.nil, some (GoError.errorsNew "param list is nil")), world0) ∧
    okClient.BatchAbnormal sampleCodes world0 (Slice.of []) =
      (Outcome.returns (Slice.nil, some (GoError.errorsNew "param list is nil")), world0) :=
  ⟨BatchAbnormal_empty okClient sampleCodes world0 Slice.nil (Or.inl rfl),
   BatchAbnormal_empty okClient sampleCodes world0 (Slice.of []) (Or.inr rfl)⟩

end AssGrpc
